import Mathlib

/-!
Shallow embedding of the Rule-Engine repository (src/rulengine.py) and a
verification of the frozen claims about it.

The Python module defines a class Node (fields: type, left, right, value) and a
class RuleEngine with methods tokenize, build_ast, create_rule, combine_rules
and evaluate_rule.  The embedding below translates each of these into a Lean
definition with the same name.  Python specifics are modelled as follows:

- A Python Node reference that may be None is modelled by the constructor
  Node.null (the parser returns None on an empty token queue; child slots and
  combined results may hold None).
- The dynamically typed operand value (int from a digit token, str from a
  quoted or bare token) is the sum type OperandValue.
- The values flowing through evaluate_rule (bools, ints, strings; Python bool
  is a subtype of int, so mixed bool-int arithmetic compares numerically) are
  the sum type PyVal; the entries of the OPERATORS dict (operator.and_,
  operator.or_, operator.gt, operator.lt, operator.eq) are modelled with
  Python semantics including the TypeError cases (for example int vs str
  comparison, or bitwise AND on strings), as Except EvalError PyVal.
- Python exceptions (ValueError on an invalid token, IndexError from
  list.pop(0) on an empty queue, ValueError on an unknown operator) become
  Except error values.
- The destructive consumption of the token list by list.pop(0) becomes
  explicit state passing: build_ast takes a list and returns the node paired
  with the remaining list.  The Python recursion terminates because every call
  pops at least one token before recursing; the embedding makes this explicit
  by a fuel parameter initialised to the length of the token list, which is
  proved sufficient (build_astF_sound): the artificial ParseError.outOfFuel is
  never produced by build_ast.
- The evaluation context (a Python dict with string keys) is an association
  list; List.lookup returns the first binding, matching the unique-key dict.
- Python str helpers are translated on the character list representation:
  str.split() (split on whitespace runs, dropping empty pieces),
  str.replace for the single characters ( and ), str.isdigit, str.isalpha,
  str.startswith, str.endswith, str.strip of the quote character, and int()
  on a digit string.
-/

namespace RuleEngine

/-- Value stored in an operand node: int(token) for a digit token, otherwise
the (stripped) token string.  Quoted string literals and bare identifiers both
end up as plain strings, exactly as in the Python source. -/
inductive OperandValue where
  | int : Int → OperandValue
  | str : String → OperandValue
deriving DecidableEq

/-- The AST node of src/rulengine.py.  Node.operator models
Node(node_type="operator", left, right, value=symbol); Node.operand models
Node(node_type="operand", value=literal); Node.null models the Python value
None in any position where the source may hold it (empty-queue parse result,
child slot, empty combine result). -/
inductive Node where
  | null : Node
  | operator (left : Node) (right : Node) (value : String) : Node
  | operand (value : OperandValue) : Node
deriving DecidableEq

/-- A Python runtime value as produced by evaluate_rule or stored in the data
dict: a bool, an int or a string. -/
inductive PyVal where
  | bool : Bool → PyVal
  | int : Int → PyVal
  | str : String → PyVal
deriving DecidableEq

/-- The single-quote character, code point 39. -/
def quoteChar : Char := Char.ofNat 39

/-- The one-character string holding the single quote. -/
def quoteStr : String := String.mk [quoteChar]

/-- Wrap a string in single quotes (used to write the quoted tokens of the
example rule strings). -/
def q (s : String) : String := quoteStr ++ s ++ quoteStr

/-- Model of rule_string.replace("(", " ( ").replace(")", " ) ") on the
character list: each parenthesis character becomes itself surrounded by
spaces; both replacements are single-character patterns whose replacement
contains no pattern character, so the two sequential replaces act
character-wise. -/
def expandParens (cs : List Char) : List Char :=
  match cs with
  | [] => []
  | c :: rest =>
    if c = '(' then ' ' :: '(' :: ' ' :: expandParens rest
    else if c = ')' then ' ' :: ')' :: ' ' :: expandParens rest
    else c :: expandParens rest

/-- Model of Python str.split() with no argument: split on runs of whitespace
and drop empty pieces.  cur accumulates the current word reversed. -/
def splitWsAux (cs : List Char) (cur : List Char) : List (List Char) :=
  match cs with
  | [] => if cur.isEmpty then [] else [cur.reverse]
  | c :: rest =>
    if c.isWhitespace then
      if cur.isEmpty then splitWsAux rest []
      else cur.reverse :: splitWsAux rest []
    else splitWsAux rest (c :: cur)

/-- RuleEngine.tokenize: insert separators around each parenthesis, then split
on whitespace. -/
def tokenize (rule_string : String) : List String :=
  (splitWsAux (expandParens rule_string.toList) []).map String.mk

/-- Python str.isdigit restricted to the ASCII rule alphabet: non-empty and
all characters decimal digits. -/
def pyIsDigit (s : String) : Bool := !s.toList.isEmpty && s.toList.all Char.isDigit

/-- Python str.isalpha restricted to the ASCII rule alphabet: non-empty and
all characters letters. -/
def pyIsAlpha (s : String) : Bool := !s.toList.isEmpty && s.toList.all Char.isAlpha

/-- Python str.startswith. -/
def pyStartsWith (s pre : String) : Bool := pre.toList.isPrefixOf s.toList

/-- Python str.endswith. -/
def pyEndsWith (s suf : String) : Bool := suf.toList.isSuffixOf s.toList

/-- Python token.strip of the quote character: remove every leading and
trailing single quote. -/
def pyStripQuotes (s : String) : String :=
  String.mk (((s.toList.dropWhile (fun c => c = quoteChar)).reverse.dropWhile
    (fun c => c = quoteChar)).reverse)

/-- Python int() applied to a token that consists of decimal digits. -/
def pyIntOfDigits (s : String) : Int :=
  (s.toList.foldl (fun acc c => acc * 10 + (c.toNat - 48)) 0 : Nat)

/-- Errors build_ast can produce: ValueError("Invalid token: ...") on a token
of no recognised shape; IndexError from tokens.pop(0) on an exhausted queue;
outOfFuel is an artifact of the explicit termination measure and is proved
unreachable from build_ast (see build_astF_sound). -/
inductive ParseError where
  | invalidToken : String → ParseError
  | indexError : ParseError
  | outOfFuel : ParseError
deriving DecidableEq

/-- RuleEngine.build_ast with the destructive token queue made explicit: the
result carries the remaining tokens.  An empty queue returns None (Node.null).
A "(" token recursively parses the left subtree, pops the operator token
unchecked, recursively parses the right subtree and pops the closing token
unchecked.  A digit token, a token that starts and ends with a single quote,
and an all-letter token become operand nodes; any other token is the invalid
token ValueError.  The fuel argument only forces termination; build_ast below
passes enough of it. -/
def build_astF (fuel : Nat) (tokens : List String) : Except ParseError (Node × List String) :=
  match fuel, tokens with
  | _, [] => .ok (.null, [])
  | 0, _ :: _ => .error .outOfFuel
  | fuel + 1, token :: rest =>
    if token = "(" then
      match build_astF fuel rest with
      | .error e => .error e
      | .ok (left_node, rest1) =>
        match rest1 with
        | [] => .error .indexError
        | operator_token :: rest2 =>
          match build_astF fuel rest2 with
          | .error e => .error e
          | .ok (right_node, rest3) =>
            match rest3 with
            | [] => .error .indexError
            | _ :: rest4 => .ok (.operator left_node right_node operator_token, rest4)
    else if pyIsDigit token then .ok (.operand (.int (pyIntOfDigits token)), rest)
    else if pyStartsWith token quoteStr && pyEndsWith token quoteStr then
      .ok (.operand (.str (pyStripQuotes token)), rest)
    else if pyIsAlpha token then .ok (.operand (.str token), rest)
    else .error (.invalidToken token)

/-- RuleEngine.build_ast on a token list, with the fuel fixed to the list
length, which build_astF_sound proves sufficient. -/
def build_ast (tokens : List String) : Except ParseError (Node × List String) :=
  build_astF tokens.length tokens

/-- RuleEngine.create_rule: tokenize then build the AST; leftover tokens are
discarded just as the Python caller ignores the mutated list. -/
def create_rule (rule_string : String) : Except ParseError Node :=
  (build_ast (tokenize rule_string)).map (fun p => p.1)

/-- The for-loop body of RuleEngine.combine_rules: AND each further parsed
rule onto the accumulated tree as the new right child. -/
def combine_loop (acc : Node) : List String → Except ParseError Node
  | [] => .ok acc
  | rule_string :: rest =>
    match create_rule rule_string with
    | .error e => .error e
    | .ok rule_ast => combine_loop (.operator acc rule_ast "AND") rest

/-- RuleEngine.combine_rules: None for an empty list, otherwise parse the
first rule and fold the remaining rules in with AND. -/
def combine_rules (rules : List String) : Except ParseError Node :=
  match rules with
  | [] => .ok .null
  | r0 :: rest =>
    match create_rule r0 with
    | .error e => .error e
    | .ok combined_ast => combine_loop combined_ast rest

/-- Errors evaluate_rule can produce: ValueError("Unknown operator: ...") for
an operator symbol missing from OPERATORS, and Python TypeError from applying
an operator function to operands of incompatible types. -/
inductive EvalError where
  | unknownOperator : String → EvalError
  | typeError : EvalError
deriving DecidableEq

/-- Numeric view of a Python value: bool counts as 0 or 1 (Python bool is a
subtype of int); a string has no numeric view. -/
def pyNumToInt : PyVal → Option Int
  | .bool b => some (if b then 1 else 0)
  | .int i => some i
  | .str _ => none

/-- Python operator.and_: on two bools the boolean AND; on numbers (bool
counted as int) the bitwise AND producing an int; a string operand raises
TypeError. -/
def operator_and (a b : PyVal) : Except EvalError PyVal :=
  match a, b with
  | .bool x, .bool y => .ok (.bool (x && y))
  | _, _ =>
    match pyNumToInt a, pyNumToInt b with
    | some x, some y => .ok (.int (Int.land x y))
    | _, _ => .error .typeError

/-- Python operator.or_: on two bools the boolean OR; on numbers the bitwise
OR producing an int; a string operand raises TypeError. -/
def operator_or (a b : PyVal) : Except EvalError PyVal :=
  match a, b with
  | .bool x, .bool y => .ok (.bool (x || y))
  | _, _ =>
    match pyNumToInt a, pyNumToInt b with
    | some x, some y => .ok (.int (Int.lor x y))
    | _, _ => .error .typeError

/-- Python operator.gt: two strings compare lexicographically; numbers (bool
counted as int) compare numerically; mixing a string with a number raises
TypeError. -/
def operator_gt (a b : PyVal) : Except EvalError PyVal :=
  match a, b with
  | .str x, .str y => .ok (.bool (decide (y < x)))
  | _, _ =>
    match pyNumToInt a, pyNumToInt b with
    | some x, some y => .ok (.bool (decide (y < x)))
    | _, _ => .error .typeError

/-- Python operator.lt, same typing rules as operator.gt. -/
def operator_lt (a b : PyVal) : Except EvalError PyVal :=
  match a, b with
  | .str x, .str y => .ok (.bool (decide (x < y)))
  | _, _ =>
    match pyNumToInt a, pyNumToInt b with
    | some x, some y => .ok (.bool (decide (x < y)))
    | _, _ => .error .typeError

/-- Python operator.eq: two strings compare as strings; numbers compare
numerically (True equals 1); a string never equals a number, giving False
rather than an error. -/
def operator_eq (a b : PyVal) : Except EvalError PyVal :=
  match a, b with
  | .str x, .str y => .ok (.bool (x == y))
  | _, _ =>
    match pyNumToInt a, pyNumToInt b with
    | some x, some y => .ok (.bool (x == y))
    | _, _ => .ok (.bool false)

/-- The OPERATORS dict lookup RuleEngine.OPERATORS.get(value): the five
recognised operator symbols map to their operator-module functions; any other
symbol gives None. -/
def OPERATORS_get (s : String) : Option (PyVal → PyVal → Except EvalError PyVal) :=
  if s = "AND" then some operator_and
  else if s = "OR" then some operator_or
  else if s = ">" then some operator_gt
  else if s = "<" then some operator_lt
  else if s = "=" then some operator_eq
  else none

/-- RuleEngine.evaluate_rule: None evaluates to False; an operand that is a
string present as a key of the data dict evaluates to the stored value and
any other operand evaluates to its own value; an operator node evaluates both
children (left first, as in the source) and applies the OPERATORS entry for
its symbol, raising the unknown-operator ValueError when there is none. -/
def evaluate_rule : Node → List (String × PyVal) → Except EvalError PyVal
  | .null, _ => .ok (.bool false)
  | .operand (.int i), _ => .ok (.int i)
  | .operand (.str s), data =>
    match List.lookup s data with
    | some v => .ok v
    | none => .ok (.str s)
  | .operator l r opv, data =>
    match evaluate_rule l data, evaluate_rule r data with
    | .error e, _ => .error e
    | .ok _, .error e => .error e
    | .ok lv, .ok rv =>
      match OPERATORS_get opv with
      | some f => f lv rv
      | none => .error (.unknownOperator opv)

/-- The example rule string of the source module (rule1_string, line 114) and
of the end-to-end scenario of the specification. -/
def rule1_string : String :=
  "((age > 30 AND department = " ++ q "Sales" ++ ") OR (age < 25 AND department = "
    ++ q "Marketing" ++ ")) AND (salary > 50000 OR experience > 5)"

/-- The sample evaluation data of the source module (line 128) and of the
end-to-end scenario of the specification. -/
def data1 : List (String × PyVal) :=
  [("age", .int 35), ("department", .str "Sales"), ("salary", .int 60000),
    ("experience", .int 3)]

deriving instance DecidableEq for Except

/-- Parse every rule string of a list, propagating the first parse error:
the specification-side description of what combine_rules does to its inputs
before folding them. -/
def parseAll : List String → Except ParseError (List Node)
  | [] => .ok []
  | r :: rest =>
    match create_rule r with
    | .error e => .error e
    | .ok a =>
      match parseAll rest with
      | .error e => .error e
      | .ok as => .ok (a :: as)

/-- The specification-side fold: each subsequent AST becomes the right child
of a fresh AND node whose left child is the previous accumulation. -/
def andFoldStep (acc a : Node) : Node := Node.operator acc a "AND"

/-- The fuel passed by build_ast is sufficient: with fuel at least the queue
length, build_astF never reports outOfFuel, and a successful parse returns a
remainder no longer than its input (each call pops at least one token). -/
theorem build_astF_sound :
    ∀ (fuel : Nat) (ts : List String), ts.length ≤ fuel →
      build_astF fuel ts ≠ .error .outOfFuel ∧
      ∀ nd rem, build_astF fuel ts = .ok (nd, rem) → rem.length ≤ ts.length := by
  intro fuel
  induction fuel with
  | zero =>
    intro ts hle
    have hnil : ts = [] := List.length_eq_zero.mp (Nat.le_zero.mp hle)
    subst hnil
    refine ⟨by simp [build_astF], ?_⟩
    intro nd rem h
    simp [build_astF] at h
    simp [h.2]
  | succ f ih =>
    intro ts hle
    match ts with
    | [] =>
      refine ⟨by simp [build_astF], ?_⟩
      intro nd rem h
      simp [build_astF] at h
      simp [h.2]
    | t :: rest =>
      have hrest : rest.length ≤ f := by
        simp only [List.length_cons] at hle
        omega
      obtain ⟨ihl1, ihl2⟩ := ih rest hrest
      by_cases ht : t = "("
      · cases hl : build_astF f rest with
        | error e =>
          have he : e ≠ .outOfFuel := fun hc => ihl1 (by rw [hl, hc])
          refine ⟨?_, ?_⟩
          · simp only [build_astF, if_pos ht, hl]
            intro hc
            exact he (by injection hc)
          · intro nd rem h
            simp only [build_astF, if_pos ht, hl] at h
            exact Except.noConfusion h
        | ok p =>
          obtain ⟨ln, rest1⟩ := p
          have hb1 : rest1.length ≤ rest.length := ihl2 ln rest1 hl
          match hr1 : rest1 with
          | [] =>
            refine ⟨?_, ?_⟩
            · simp only [build_astF, if_pos ht, hl]
              intro hc
              injection hc with hc2
              exact ParseError.noConfusion hc2
            · intro nd rem h
              simp only [build_astF, if_pos ht, hl] at h
              exact Except.noConfusion h
          | opTok :: rest2 =>
            have hrest2 : rest2.length ≤ f := by
              simp only [hr1, List.length_cons] at hb1
              omega
            obtain ⟨ihr1, ihr2⟩ := ih rest2 hrest2
            cases hr : build_astF f rest2 with
            | error e =>
              have he : e ≠ .outOfFuel := fun hc => ihr1 (by rw [hr, hc])
              refine ⟨?_, ?_⟩
              · simp only [build_astF, if_pos ht, hl, hr]
                intro hc
                exact he (by injection hc)
              · intro nd rem h
                simp only [build_astF, if_pos ht, hl, hr] at h
                exact Except.noConfusion h
            | ok p2 =>
              obtain ⟨rn, rest3⟩ := p2
              have hb3 : rest3.length ≤ rest2.length := ihr2 rn rest3 hr
              match hr3 : rest3 with
              | [] =>
                refine ⟨?_, ?_⟩
                · simp only [build_astF, if_pos ht, hl, hr]
                  intro hc
                  injection hc with hc2
                  exact ParseError.noConfusion hc2
                · intro nd rem h
                  simp only [build_astF, if_pos ht, hl, hr] at h
                  exact Except.noConfusion h
              | _ :: rest4 =>
                refine ⟨?_, ?_⟩
                · simp only [build_astF, if_pos ht, hl, hr]
                  intro hc
                  exact Except.noConfusion hc
                · intro nd rem h
                  simp only [build_astF, if_pos ht, hl, hr, Except.ok.injEq,
                    Prod.mk.injEq] at h
                  have hrem : rem = rest4 := h.2.symm
                  subst hrem
                  simp only [hr3, List.length_cons] at hb3
                  simp only [List.length_cons] at hb1
                  simp only [List.length_cons]
                  omega
      · refine ⟨?_, ?_⟩
        · simp only [build_astF, if_neg ht]
          intro hc
          split at hc
          · exact Except.noConfusion hc
          · split at hc
            · exact Except.noConfusion hc
            · split at hc
              · exact Except.noConfusion hc
              · injection hc with hc2
                exact ParseError.noConfusion hc2
        · intro nd rem h
          simp only [build_astF, if_neg ht] at h
          split at h
          · simp only [Except.ok.injEq, Prod.mk.injEq] at h
            simp [h.2]
          · split at h
            · simp only [Except.ok.injEq, Prod.mk.injEq] at h
              simp [h.2]
            · split at h
              · simp only [Except.ok.injEq, Prod.mk.injEq] at h
                simp [h.2]
              · exact Except.noConfusion h

/-- The combine_rules loop realises the left fold: when every rule of the list
parses, folding them onto acc produces exactly the foldl of the parsed ASTs
with the AND join. -/
theorem combine_loop_parseAll :
    ∀ (rs : List String) (as : List Node) (acc : Node),
      parseAll rs = .ok as → combine_loop acc rs = .ok (as.foldl andFoldStep acc) := by
  intro rs
  induction rs with
  | nil =>
    intro as acc h
    simp only [parseAll, Except.ok.injEq] at h
    subst h
    simp [combine_loop]
  | cons r rest ih =>
    intro as acc h
    simp only [parseAll] at h
    cases hr : create_rule r with
    | error e =>
      rw [hr] at h
      exact Except.noConfusion h
    | ok a =>
      rw [hr] at h
      cases hrest : parseAll rest with
      | error e =>
        rw [hrest] at h
        exact Except.noConfusion h
      | ok as2 =>
        rw [hrest] at h
        simp only [Except.ok.injEq] at h
        subst h
        simp only [combine_loop, hr]
        rw [ih as2 (.operator acc a "AND") hrest]
        simp [List.foldl_cons, andFoldStep]

/-- Folding at least one AST onto an AND node with the AND join keeps the root
an AND operator node. -/
theorem foldl_and_root :
    ∀ (l : List Node) (x y : Node),
      ∃ u v, l.foldl andFoldStep (Node.operator x y "AND") = Node.operator u v "AND" := by
  intro l
  induction l with
  | nil => intro x y; exact ⟨x, y, rfl⟩
  | cons c rest ih =>
    intro x y
    simpa [List.foldl_cons, andFoldStep] using ih (Node.operator x y "AND") c

/-- A token that starts with a single quote has the quote character as its
first character. -/
theorem quoted_head (t : String) (h : pyStartsWith t quoteStr = true) :
    ∃ cs, t.toList = quoteChar :: cs := by
  unfold pyStartsWith at h
  rw [show quoteStr.toList = [quoteChar] from rfl] at h
  cases hts : t.toList with
  | nil => rw [hts] at h; simp [List.isPrefixOf] at h
  | cons c cs =>
    rw [hts] at h
    simp only [List.isPrefixOf, List.isPrefixOf_nil_left, Bool.and_true, beq_iff_eq] at h
    exact ⟨cs, by rw [← h]⟩

/-- A token that starts with a single quote is not the parenthesis token. -/
theorem quoted_not_lparen (t : String) (h : pyStartsWith t quoteStr = true) : t ≠ "(" := by
  obtain ⟨cs, hcs⟩ := quoted_head t h
  intro he
  subst he
  injection hcs with h1 h2
  exact absurd h1 (by decide)

/-- A token that starts with a single quote is not a digit token. -/
theorem quoted_not_digit (t : String) (h : pyStartsWith t quoteStr = true) :
    pyIsDigit t = false := by
  obtain ⟨cs, hcs⟩ := quoted_head t h
  unfold pyIsDigit
  rw [hcs]
  simp [List.all_cons, show quoteChar.isDigit = false from by decide]

/-- C1: the claimed end-to-end scenario fails in the code.  Parsing the
example rule string of the source module (the exact string of the claim) does
not succeed: the inner parenthesis group holds two operators, so the parser
consumes the AND token as the unchecked closing parenthesis and then pops the
token "=", which has none of the recognised shapes, raising the invalid-token
ValueError.  No AST is produced, hence evaluation can never yield true. -/
theorem create_rule_demo_rule_invalid_token :
    create_rule rule1_string = .error (.invalidToken "=") := by decide

/-- C2 counterexample: an operand node built by the parser from the
single-quoted token holding Sales does NOT evaluate to the unquoted string
under every context.  The evaluator looks any string-valued operand up in the
context, so under a context binding the key Sales to the int 99 the literal
evaluates to 99, not to the string Sales. -/
theorem quoted_literal_looked_up_cex :
    create_rule (q "Sales") = .ok (.operand (.str "Sales")) ∧
    evaluate_rule (.operand (.str "Sales")) [("Sales", .int 99)] = .ok (.int 99) ∧
    (PyVal.int 99 : PyVal) ≠ .str "Sales" :=
  ⟨by decide, by decide, by decide⟩

/-- C2 amended: an operand node built by the parser from a single-quoted token
evaluates to the unquoted string itself for every context that does not hold
that string as a key; the evaluator applies the context lookup to every
string-valued operand, without distinguishing string literals from field-name
references. -/
theorem quoted_operand_literal_eval (t : String) (rest : List String)
    (data : List (String × PyVal))
    (h1 : pyStartsWith t quoteStr = true) (h2 : pyEndsWith t quoteStr = true)
    (h3 : List.lookup (pyStripQuotes t) data = none) :
    build_ast (t :: rest) = .ok (.operand (.str (pyStripQuotes t)), rest) ∧
    evaluate_rule (.operand (.str (pyStripQuotes t))) data = .ok (.str (pyStripQuotes t)) := by
  have hnp := quoted_not_lparen t h1
  have hnd := quoted_not_digit t h1
  constructor
  · simp [build_ast, build_astF, hnp, hnd, h1, h2]
  · simp [evaluate_rule, h3]

/-- C2 amended, witness at the quoted token holding Sales against a context
without a Sales key. -/
theorem quoted_operand_literal_eval_witness :
    pyStartsWith (q "Sales") quoteStr = true ∧
    pyEndsWith (q "Sales") quoteStr = true ∧
    List.lookup (pyStripQuotes (q "Sales")) [("age", PyVal.int 1)] = none ∧
    (build_ast [q "Sales"] = .ok (.operand (.str (pyStripQuotes (q "Sales"))), []) ∧
      evaluate_rule (.operand (.str (pyStripQuotes (q "Sales")))) [("age", PyVal.int 1)] =
        .ok (.str (pyStripQuotes (q "Sales")))) :=
  ⟨by decide, by decide, by decide,
    quoted_operand_literal_eval (q "Sales") [] [("age", PyVal.int 1)]
      (by decide) (by decide) (by decide)⟩

/-- C3: combine_rules on a non-empty list of rule strings that all parse is
the left-leaning AND fold: each subsequent parsed AST becomes the right child
of a fresh AND node whose left child is the previous accumulation, starting
from the parse of the first rule. -/
theorem combine_rules_left_fold (r0 : String) (rs : List String) (a0 : Node)
    (as : List Node) (h0 : create_rule r0 = .ok a0) (hs : parseAll rs = .ok as) :
    combine_rules (r0 :: rs) = .ok (as.foldl andFoldStep a0) := by
  simp only [combine_rules, h0]
  exact combine_loop_parseAll rs as a0 hs

/-- C3, witness at the two-rule instance of the claim: the combination equals
the AND node whose children are the two individually parsed trees. -/
theorem combine_rules_left_fold_witness :
    create_rule "(age > 30)" =
      .ok (.operator (.operand (.str "age")) (.operand (.int 30)) ">") ∧
    parseAll ["(salary > 50000)"] =
      .ok [.operator (.operand (.str "salary")) (.operand (.int 50000)) ">"] ∧
    combine_rules ["(age > 30)", "(salary > 50000)"] =
      .ok (.operator (.operator (.operand (.str "age")) (.operand (.int 30)) ">")
        (.operator (.operand (.str "salary")) (.operand (.int 50000)) ">") "AND") :=
  ⟨by decide, by decide,
    combine_rules_left_fold "(age > 30)" ["(salary > 50000)"]
      (.operator (.operand (.str "age")) (.operand (.int 30)) ">")
      [.operator (.operand (.str "salary")) (.operand (.int 50000)) ">"]
      (by decide) (by decide)⟩

/-- C4: when the parser pops a token that is not the parenthesis token, not
all decimal digits, not wrapped in single quotes and not all letters, it fails
immediately with the invalid-token error and returns no AST. -/
theorem build_ast_invalid_token_error (t : String) (rest : List String)
    (h1 : t ≠ "(") (h2 : pyIsDigit t = false)
    (h3 : (pyStartsWith t quoteStr && pyEndsWith t quoteStr) = false)
    (h4 : pyIsAlpha t = false) :
    build_ast (t :: rest) = .error (.invalidToken t) := by
  simp [build_ast, build_astF, h1, h2, h3, h4]

/-- C4, witness at the token >= (a shape the grammar does not know). -/
theorem build_ast_invalid_token_error_witness :
    (">=" ≠ "(") ∧ pyIsDigit ">=" = false ∧
    (pyStartsWith ">=" quoteStr && pyEndsWith ">=" quoteStr) = false ∧
    pyIsAlpha ">=" = false ∧
    build_ast [">=", "5"] = .error (.invalidToken ">=") :=
  ⟨by decide, by decide, by decide, by decide,
    build_ast_invalid_token_error ">=" ["5"] (by decide) (by decide) (by decide) (by decide)⟩

/-- C5 counterexample: an operator node with the unknown symbol XOR need not
fail with the unknown-operator error.  Children are evaluated first, so a
child comparing an int with a string fails with the TypeError, and that error
is what the XOR node reports. -/
theorem unknown_operator_error_cex :
    OPERATORS_get "XOR" = none ∧
    evaluate_rule (.operator (.operator (.operand (.int 1)) (.operand (.str "a")) ">")
      (.operand (.int 0)) "XOR") [] = .error .typeError ∧
    (EvalError.typeError ≠ EvalError.unknownOperator "XOR") :=
  ⟨rfl, by decide, by decide⟩

/-- C5 amended: for every operator node whose symbol is not one of the five
recognised operators, evaluate_rule never returns a value, for any context;
when both children evaluate successfully the failure is the unknown-operator
error naming the symbol, and otherwise the failing child error is what
propagates. -/
theorem unknown_operator_never_returns (l r : Node) (s : String)
    (data : List (String × PyVal))
    (hs : s ∉ (["AND", "OR", ">", "<", "="] : List String)) :
    (∀ v, evaluate_rule (.operator l r s) data ≠ .ok v) ∧
    (∀ lv rv, evaluate_rule l data = .ok lv → evaluate_rule r data = .ok rv →
      evaluate_rule (.operator l r s) data = .error (.unknownOperator s)) := by
  simp only [List.mem_cons, List.mem_singleton, not_or] at hs
  obtain ⟨h1, h2, h3, h4, h5⟩ := hs
  have hget : OPERATORS_get s = none := by
    simp [OPERATORS_get, h1, h2, h3, h4, h5]
  constructor
  · intro v hcontra
    simp only [evaluate_rule] at hcontra
    cases hl : evaluate_rule l data with
    | error e =>
      rw [hl] at hcontra
      exact Except.noConfusion hcontra
    | ok lv =>
      rw [hl] at hcontra
      cases hr : evaluate_rule r data with
      | error e =>
        rw [hr] at hcontra
        exact Except.noConfusion hcontra
      | ok rv =>
        rw [hr, hget] at hcontra
        exact Except.noConfusion hcontra
  · intro lv rv hl hr
    simp only [evaluate_rule, hl, hr, hget]

/-- C5 amended, witness at an XOR node whose children evaluate cleanly. -/
theorem unknown_operator_never_returns_witness :
    ("XOR" ∉ (["AND", "OR", ">", "<", "="] : List String)) ∧
    evaluate_rule (.operator (.operand (.int 1)) (.operand (.int 2)) "XOR") [] =
      .error (.unknownOperator "XOR") :=
  ⟨by decide,
    (unknown_operator_never_returns (.operand (.int 1)) (.operand (.int 2)) "XOR" []
      (by decide)).2 (.int 1) (.int 2) rfl rfl⟩

/-- C6: an operand holding a bare-identifier string that is not a key of the
context evaluates to the identifier string itself, with no error. -/
theorem bare_identifier_fallback (s : String) (data : List (String × PyVal))
    (_hid : pyIsAlpha s = true) (hmem : List.lookup s data = none) :
    evaluate_rule (.operand (.str s)) data = .ok (.str s) := by
  simp [evaluate_rule, hmem]

/-- C6, witness: evaluating operand foo against the empty context yields the
string foo. -/
theorem bare_identifier_fallback_witness :
    pyIsAlpha "foo" = true ∧ List.lookup "foo" ([] : List (String × PyVal)) = none ∧
    evaluate_rule (.operand (.str "foo")) [] = .ok (.str "foo") :=
  ⟨by decide, by decide, bare_identifier_fallback "foo" [] (by decide) (by decide)⟩

/-- C7: the parsed single-comparison rule (age > 30) evaluates to true against
a context with age 35 and to false against a context with age 20. -/
theorem single_comparison_round_trip :
    (create_rule "(age > 30)").map (fun ast => evaluate_rule ast [("age", PyVal.int 35)]) =
      .ok (.ok (.bool true)) ∧
    (create_rule "(age > 30)").map (fun ast => evaluate_rule ast [("age", PyVal.int 20)]) =
      .ok (.ok (.bool false)) :=
  ⟨by decide, by decide⟩

/-- C8: evaluation is deterministic; in the embedding evaluate_rule is a pure
function of the AST and the context, so identical inputs give identical
results, and no mutation of either input is expressible. -/
theorem evaluate_rule_deterministic (a1 a2 : Node) (d1 d2 : List (String × PyVal))
    (h1 : a1 = a2) (h2 : d1 = d2) :
    evaluate_rule a1 d1 = evaluate_rule a2 d2 := by
  rw [h1, h2]

/-- C8, witness at a concrete AST and context. -/
theorem evaluate_rule_deterministic_witness :
    (Node.operand (.int 0) : Node) = Node.operand (.int 0) ∧
    ([("age", PyVal.int 35)] : List (String × PyVal)) = [("age", PyVal.int 35)] ∧
    evaluate_rule (.operand (.int 0)) [("age", PyVal.int 35)] =
      evaluate_rule (.operand (.int 0)) [("age", PyVal.int 35)] :=
  ⟨rfl, rfl,
    evaluate_rule_deterministic (.operand (.int 0)) (.operand (.int 0))
      [("age", PyVal.int 35)] [("age", PyVal.int 35)] rfl rfl⟩

/-- Inversion for parseAll on a cons cell: a successful parse of the whole
list yields a successful parse of the head rule and of the tail list. -/
theorem parseAll_cons_inv (r : String) (rs : List String) (as : List Node)
    (h : parseAll (r :: rs) = .ok as) :
    ∃ a as2, create_rule r = .ok a ∧ parseAll rs = .ok as2 ∧ as = a :: as2 := by
  simp only [parseAll] at h
  cases hc : create_rule r with
  | error e =>
    rw [hc] at h
    exact Except.noConfusion h
  | ok a =>
    rw [hc] at h
    cases hp : parseAll rs with
    | error e =>
      rw [hp] at h
      exact Except.noConfusion h
    | ok as2 =>
      rw [hp] at h
      simp only [Except.ok.injEq] at h
      exact ⟨a, as2, rfl, rfl, h.symm⟩

/-- C9: when two or more rules that all parse are combined the root of the
result is an AND operator node; a one-element list gives exactly the parse of
that single rule, whatever it is; the empty list gives the empty result
(None). -/
theorem combine_rules_shape (r0 r1 : String) (rs : List String) (asts : List Node)
    (h : parseAll (r0 :: r1 :: rs) = .ok asts) (r : String) :
    (∃ u v, combine_rules (r0 :: r1 :: rs) = .ok (.operator u v "AND")) ∧
    combine_rules [r] = create_rule r ∧
    combine_rules ([] : List String) = .ok .null := by
  refine ⟨?_, ?_, rfl⟩
  · obtain ⟨a0, as1, h0, hrest, hasts⟩ := parseAll_cons_inv r0 (r1 :: rs) asts h
    obtain ⟨a1, as2, hc1, hc2, has1⟩ := parseAll_cons_inv r1 rs as1 hrest
    subst has1
    have hloop := combine_loop_parseAll (r1 :: rs) (a1 :: as2) a0 hrest
    simp only [combine_rules, h0]
    rw [hloop]
    simp only [List.foldl_cons]
    obtain ⟨u, v, huv⟩ := foldl_and_root as2 a0 a1
    exact ⟨u, v, by rw [show andFoldStep a0 a1 = Node.operator a0 a1 "AND" from rfl, huv]⟩
  · cases hc : create_rule r with
    | error e => simp [combine_rules, hc]
    | ok c => simp [combine_rules, combine_loop, hc]

/-- C9, witness: two parsed rules give an AND root; a singleton list is the
plain parse; the empty list is None. -/
theorem combine_rules_shape_witness :
    parseAll ["(age > 30)", "(salary > 50000)"] =
      .ok [.operator (.operand (.str "age")) (.operand (.int 30)) ">",
        .operator (.operand (.str "salary")) (.operand (.int 50000)) ">"] ∧
    ((∃ u v, combine_rules ["(age > 30)", "(salary > 50000)"] = .ok (.operator u v "AND")) ∧
      combine_rules ["experience"] = create_rule "experience" ∧
      combine_rules ([] : List String) = .ok .null) :=
  ⟨by decide,
    combine_rules_shape "(age > 30)" "(salary > 50000)" []
      [.operator (.operand (.str "age")) (.operand (.int 30)) ">",
        .operator (.operand (.str "salary")) (.operand (.int 50000)) ">"]
      (by decide) "experience"⟩

/-- C10: an operand node holding an integer evaluates to that integer under
every context; the context lookup is guarded by the value being a string, so
an integer operand is never resolved against the context. -/
theorem integer_operand_ignores_context (i : Int) (data : List (String × PyVal)) :
    evaluate_rule (.operand (.int i)) data = .ok (.int i) := rfl

end RuleEngine
